import Mathlib

/-!
Shallow embedding of FredYakumo/LogUtil (src/log_level.rs, src/log_util.rs).

Modelling conventions:
- File contents are `List Char`; Rust byte lengths/offsets are modelled as
  char counts (exact for ASCII payloads).
- The filesystem is an association list from path strings to contents; the
  most recently set binding wins.
- A Rust `File` handle is a path name, a stream position, and whether it was
  opened in append mode (append-mode writes always go to the end of file).
- Seeking past end-of-file and then writing zero-fills the gap, as POSIX does.
- The wall clock is passed in as an explicit `DateTime` argument; the source
  samples `chrono::Local::now()` during a call, embedded here as one instant
  per call.
- Fallible seek/write/stream_position operations on open handles take explicit
  error-injection flags mirroring how the source discards each failure
  (`let _ = ...`, `.unwrap_or_else(|_f| {})`, `unwrap_or_default()`); file
  creation failures terminate the process in the source by design (spec §7a)
  and are outside the modelled state space.
- `u64` subtraction is modelled with wrap-around modulo 2^64 (release-build
  semantics).
-/

set_option autoImplicit false

/-- LogLevel from src/log_level.rs with its discriminant values
Debug = 4, Warn = 3, Info = 2, Error = 1. -/
inductive LogLevel
  | Debug
  | Warn
  | Info
  | Error
  deriving DecidableEq, Repr

/-- The discriminant used by `log_level as u32`. -/
def LogLevel.toU32 : LogLevel → Nat
  | .Debug => 4
  | .Warn => 3
  | .Info => 2
  | .Error => 1

/-- The fmt::Display impl for LogLevel in src/log_level.rs;
note Warn renders as "WARNING". -/
def LogLevel.display : LogLevel → String
  | .Info => "INFO"
  | .Debug => "DEBUG"
  | .Error => "ERROR"
  | .Warn => "WARNING"

/-- log crate LevelFilter with discriminants Off = 0, Error = 1, Warn = 2,
Info = 3, Debug = 4, Trace = 5 (used by `*MAX_LOG_LEVEL as u32`). -/
inductive LevelFilter
  | Off
  | Error
  | Warn
  | Info
  | Debug
  | Trace
  deriving DecidableEq, Repr

/-- The discriminant of the log crate LevelFilter. -/
def LevelFilter.toU32 : LevelFilter → Nat
  | .Off => 0
  | .Error => 1
  | .Warn => 2
  | .Info => 3
  | .Debug => 4
  | .Trace => 5

/-- log crate Level carried by a facade Record. -/
inductive LLevel
  | Error
  | Warn
  | Info
  | Debug
  | Trace
  deriving DecidableEq, Repr

/-- The log crate Display impl for Level, used when formatting the file line
in `LogUtil::log` via `record.level()`. -/
def LLevel.display : LLevel → String
  | .Error => "ERROR"
  | .Warn => "WARN"
  | .Info => "INFO"
  | .Debug => "DEBUG"
  | .Trace => "TRACE"

/-- fetch_max_level_from_env (src/log_util.rs): case-sensitive match on the
RUST_LOG environment variable, `none` modelling an unset variable
(`std::env::var(..).unwrap_or_default()`). -/
def fetch_max_level_from_env (v : Option String) : LevelFilter :=
  let s := v.getD ""
  if s = "info" then .Info
  else if s = "debug" then .Debug
  else if s = "error" then .Error
  else if s = "warn" then .Warn
  else if s = "off" then .Off
  else if s = "trace" then .Trace
  else .Info

/-- The gate of `output_progress_msg`:
`log_level as u32 <= *MAX_LOG_LEVEL as u32`. -/
def levelEnabled (l : LogLevel) (f : LevelFilter) : Bool :=
  l.toU32 ≤ f.toU32

/-- Calendar date (chrono NaiveDate). -/
structure Date where
  year : Nat
  month : Nat
  day : Nat
  deriving DecidableEq, Repr

/-- Wall-clock instant (chrono Local::now()), to second precision as the
formats involved render nothing finer. -/
structure DateTime where
  date : Date
  hour : Nat
  minute : Nat
  second : Nat
  deriving DecidableEq, Repr

/-- Two-digit zero-padded rendering of an in-range field, as chrono prints
numeric fields of "%m %d %H %M %S" (values of real dates are below 100). -/
def pad2 (n : Nat) : String :=
  String.mk [Nat.digitChar (n / 10 % 10), Nat.digitChar (n % 10)]

/-- Four-digit zero-padded rendering of a year, as chrono prints "%Y" for the
years 0..9999. -/
def pad4 (n : Nat) : String :=
  String.mk [Nat.digitChar (n / 1000 % 10), Nat.digitChar (n / 100 % 10),
             Nat.digitChar (n / 10 % 10), Nat.digitChar (n % 10)]

/-- Rendering of "%Y%m%d", used in dated log file names. -/
def Date.compact (d : Date) : String :=
  pad4 d.year ++ pad2 d.month ++ pad2 d.day

/-- Rendering of "%Y-%m-%d %H:%M:%S" (get_now_time_str!). -/
def DateTime.timestamp (t : DateTime) : String :=
  pad4 t.date.year ++ "-" ++ pad2 t.date.month ++ "-" ++ pad2 t.date.day ++ " " ++
    pad2 t.hour ++ ":" ++ pad2 t.minute ++ ":" ++ pad2 t.second

/-- The filesystem: paths to contents, most recent binding first. -/
abbrev FS := List (String × List Char)

/-- Look a path up in the filesystem. -/
def fsGet (fs : FS) (n : String) : Option (List Char) :=
  match fs with
  | [] => none
  | (m, c) :: rest => if m = n then some c else fsGet rest n

/-- Bind a path to new contents. -/
def fsSet (fs : FS) (n : String) (c : List Char) : FS :=
  (n, c) :: fs

/-- An open file handle: which path it refers to, its stream position, and
whether it was opened with OpenOptions::append. -/
structure Handle where
  name : String
  pos : Nat
  append : Bool
  deriving DecidableEq, Repr

/-- Overwrite-in-place write of `s` into contents `c` at offset `p`,
zero-filling any gap between end-of-file and `p`. -/
def writeAt (c : List Char) (p : Nat) (s : List Char) : List Char :=
  let c2 := c ++ List.replicate (p - c.length) (Char.ofNat 0)
  c2.take p ++ s ++ c2.drop (p + s.length)

/-- Write through a handle: append-mode handles write at end-of-file, others
at the handle's stream position; the position advances past the write. -/
def hWrite (fs : FS) (h : Handle) (s : List Char) : FS × Handle :=
  let c := (fsGet fs h.name).getD []
  let p := if h.append then c.length else h.pos
  (fsSet fs h.name (writeAt c p s), { h with pos := p + s.length })

/-- Wrapping u64 subtraction (`p - (...) as u64` in a release build). -/
def wsub (a b : Nat) : Nat :=
  (((a : Int) - (b : Int)) % (2 ^ 64 : Int)).toNat

/-- get_or_create_log_dir: the directory "log/<class_name>" (directory
creation is idempotent and fatal on failure, so only the path matters). -/
def get_or_create_log_dir (class_name : String) : String :=
  "log/" ++ class_name

/-- Path of the latest file: log_dir.join("<class_name>.log"). -/
def latest_path (class_name : String) : String :=
  get_or_create_log_dir class_name ++ "/" ++ class_name ++ ".log"

/-- Path of the dated file: log_dir.join("<class_name>_<YYYYMMDD>.log"). -/
def dated_path (class_name : String) (d : Date) : String :=
  get_or_create_log_dir class_name ++ "/" ++ class_name ++ "_" ++ d.compact ++ ".log"

/-- Per-channel writer state (struct LogUtil), with the filesystem bundled in.
Arc/Mutex wrappers are dropped: the embedding is sequential. -/
structure LogUtil where
  fs : FS
  class_name : String
  out_log_file : Option Handle
  out_log_file_line_position : Option Nat
  out_log_date_file : Option Handle
  out_log_date_file_line_position : Option Nat
  out_log_date : Date
  init_date : Date
  deriving DecidableEq, Repr

/-- The level labels the console-output macros print
(output_debug_log!, output_error_log!, output_warn_log!, output_info_log!);
note Warn prints as "WARN" on the console. -/
def consoleLabel : LogLevel → String
  | .Debug => "DEBUG"
  | .Error => "ERROR"
  | .Warn => "WARN"
  | .Info => "INFO"

/-- The "[<ts> <label>] <message>" layout shared by every console macro and
both file-write paths. -/
def log_line (ts label msg : String) : String :=
  "[" ++ ts ++ " " ++ label ++ "] " ++ msg

/-- calculate_log_prefix_len:
format!("[2024-05-08 12:24:05 {}] ", log_level).len(). -/
def calculate_log_prefix_len (log_level : LogLevel) : Nat :=
  ("[2024-05-08 12:24:05 " ++ log_level.display ++ "] ").length

/-- Error-injection flags for one file block of a progress write: the seek,
the write! and the stream_position call. -/
structure FileErrs where
  seekErr : Bool
  writeErr : Bool
  posErr : Bool
  deriving DecidableEq, Repr

/-- All file operations succeed. -/
def noFileErrs : FileErrs :=
  { seekErr := false, writeErr := false, posErr := false }

/-- Error-injection flags for a whole progress write. -/
structure ProgressErrs where
  latest : FileErrs
  dated : FileErrs
  deriving DecidableEq, Repr

/-- All file operations of a progress write succeed. -/
def noProgressErrs : ProgressErrs :=
  { latest := noFileErrs, dated := noFileErrs }

/-- The rollover block of output_progress_msg (lines 161-198): when backing
files exist and the current date differs from out_log_date, reopen the latest
file truncated, the dated file in append/create mode, and store the new date.
A failed open panics in the source and is outside the model (spec §7a). -/
def progress_rollover (now : DateTime) (st : LogUtil) : LogUtil :=
  match st.out_log_file, st.out_log_date_file with
  | some _, some _ =>
    if now.date ≠ st.out_log_date then
      let out_file_path := latest_path st.class_name
      let fs1 := fsSet st.fs out_file_path []
      let out_date_file_path := dated_path st.class_name now.date
      let dc := (fsGet fs1 out_date_file_path).getD []
      let fs2 := fsSet fs1 out_date_file_path dc
      { st with
        fs := fs2,
        out_log_file := some { name := out_file_path, pos := 0, append := false },
        out_log_date_file := some { name := out_date_file_path, pos := 0, append := true },
        out_log_date := now.date }
    else st
  | _, _ => st

/-- One file block of output_progress_msg (lines 200-222 for the latest file,
223-245 for the dated file): seek to the stored cursor, write the formatted
line, then set the cursor from stream_position — to it when is_process_stop,
else rewound by msg.len() plus `preLen` (the sample-timestamp prefix length);
a failed stream_position stores 0. -/
def progress_file_write (now : DateTime) (e : FileErrs) (fs : FS) (h : Handle)
    (lp : Nat) (log_level : LogLevel) (msg : String) (is_process_stop : Bool)
    (preLen : Nat) : FS × Handle × Nat :=
  let h1 := if e.seekErr then h else { h with pos := lp }
  let text := log_line now.timestamp log_level.display msg
  let r := if e.writeErr then (fs, h1) else hWrite fs h1 text.data
  let lp1 :=
    if e.posErr then 0
    else if is_process_stop then r.2.pos
    else wsub r.2.pos (msg.length + preLen)
  (r.1, r.2, lp1)

/-- LogUtil::output_progress_msg. Returns the new state and the console
output (color escape codes omitted; `maxLevel` stands for *MAX_LOG_LEVEL).
The latest-file block spells its prefix length out inline; the dated-file
block calls calculate_log_prefix_len, exactly as the source does. -/
def output_progress_msg (maxLevel : LevelFilter) (now : DateTime)
    (e : ProgressErrs) (st : LogUtil) (log_level : LogLevel) (msg : String)
    (is_process_stop : Bool) : LogUtil × String :=
  if log_level.toU32 ≤ maxLevel.toU32 then
    let console := "\r" ++ log_line now.timestamp (consoleLabel log_level) msg
    let st1 := progress_rollover now st
    let st2 :=
      match st1.out_log_file, st1.out_log_file_line_position with
      | some h, some lp =>
        let r := progress_file_write now e.latest st1.fs h lp log_level msg
          is_process_stop (("[2024-05-08 12:24:05 " ++ log_level.display ++ "] ").length)
        { st1 with
          fs := r.1, out_log_file := some r.2.1,
          out_log_file_line_position := some r.2.2 }
      | _, _ => st1
    let st3 :=
      match st2.out_log_date_file, st2.out_log_date_file_line_position with
      | some h, some lp =>
        let r := progress_file_write now e.dated st2.fs h lp log_level msg
          is_process_stop (calculate_log_prefix_len log_level)
        { st2 with
          fs := r.1, out_log_date_file := some r.2.1,
          out_log_date_file_line_position := some r.2.2 }
      | _, _ => st2
    (st3, console)
  else (st, "")

/-- A facade log record: level, rendered message, and source location. -/
structure LRecord where
  level : LLevel
  msg : String
  module_path : Option String
  line : Option Nat
  deriving DecidableEq, Repr

/-- The console label chosen by the match in LogUtil::log (Trace falls into
the catch-all Info arm). -/
def recordConsoleLabel : LLevel → String
  | .Debug => "DEBUG"
  | .Error => "ERROR"
  | .Warn => "WARN"
  | _ => "INFO"

/-- Error-injection flags for a record write: the rollover's seek-to-end on
the freshly opened dated file, then the writeln! and stream_position call on
each file. -/
structure RecordErrs where
  rolloverSeekErr : Bool
  latestWriteErr : Bool
  latestPosErr : Bool
  datedWriteErr : Bool
  datedPosErr : Bool
  deriving DecidableEq, Repr

/-- All file operations of a record write succeed. -/
def noRecordErrs : RecordErrs :=
  { rolloverSeekErr := false, latestWriteErr := false, latestPosErr := false,
    datedWriteErr := false, datedPosErr := false }

/-- The rollover block of LogUtil::log (lines 293-334): like the progress
rollover, except the dated file is opened write/read/create and then seeked
to End(0); that seek's failure is discarded, leaving the handle at 0. -/
def record_rollover (now : DateTime) (rolloverSeekErr : Bool) (st : LogUtil) :
    LogUtil :=
  match st.out_log_file, st.out_log_date_file with
  | some _, some _ =>
    if now.date ≠ st.out_log_date then
      let out_file_path := latest_path st.class_name
      let fs1 := fsSet st.fs out_file_path []
      let out_date_file_path := dated_path st.class_name now.date
      let dc := (fsGet fs1 out_date_file_path).getD []
      let fs2 := fsSet fs1 out_date_file_path dc
      let dpos := if rolloverSeekErr then 0 else dc.length
      { st with
        fs := fs2,
        out_log_file := some { name := out_file_path, pos := 0, append := false },
        out_log_date_file := some { name := out_date_file_path, pos := dpos, append := false },
        out_log_date := now.date }
    else st
  | _, _ => st

/-- One file block of LogUtil::log (lines 336-353 and 354-371): writeln! the
full line at the current stream position (no seek), then store
stream_position().unwrap_or_default() as the cursor. -/
def record_file_write (now : DateTime) (writeErr posErr : Bool) (fs : FS)
    (h : Handle) (level : LLevel) (msg : String) : FS × Handle × Nat :=
  let text := log_line now.timestamp level.display msg ++ "\n"
  let r := if writeErr then (fs, h) else hWrite fs h text.data
  let lp1 := if posErr then 0 else r.2.pos
  (r.1, r.2, lp1)

/-- LogUtil::log (the record-write path). `isRelease` embeds the build-time
IS_RELEASE constant; the console string is returned without color codes. -/
def LogUtil.log (isRelease : Bool) (now : DateTime) (e : RecordErrs)
    (st : LogUtil) (record : LRecord) : LogUtil × String :=
  let log_location_str :=
    if !isRelease then
      match record.module_path with
      | some m => "[" ++ m ++ "] "
      | none => ""
    else ""
  let error_location_str :=
    if !isRelease then
      match record.module_path, record.line with
      | some m, some l => "[" ++ m ++ ":" ++ toString l ++ "] "
      | _, _ => ""
    else ""
  let loc :=
    match record.level with
    | .Error => error_location_str
    | _ => log_location_str
  let console := log_line now.timestamp (recordConsoleLabel record.level)
    (loc ++ record.msg) ++ "\n"
  let st1 := record_rollover now e.rolloverSeekErr st
  let st2 :=
    match st1.out_log_file, st1.out_log_file_line_position with
    | some h, some _ =>
      let r := record_file_write now e.latestWriteErr e.latestPosErr st1.fs h
        record.level record.msg
      { st1 with
        fs := r.1, out_log_file := some r.2.1,
        out_log_file_line_position := some r.2.2 }
    | _, _ => st1
  let st3 :=
    match st2.out_log_date_file, st2.out_log_date_file_line_position with
    | some h, some _ =>
      let r := record_file_write now e.datedWriteErr e.datedPosErr st2.fs h
        record.level record.msg
      { st2 with
        fs := r.1, out_log_date_file := some r.2.1,
        out_log_date_file_line_position := some r.2.2 }
    | _, _ => st2
  (st3, console)

/-- LogUtil::new: empty names give a console-only writer with no backing
files; otherwise the latest file is opened write/create/truncate and the
dated file write/read/create then seeked to its end; both stored cursors
start at 0 and both dates at today. -/
def LogUtil.new (fs : FS) (class_name : String) (now_date : Date) : LogUtil :=
  if class_name = "" then
    { fs := fs, class_name := class_name,
      out_log_file := none, out_log_file_line_position := some 0,
      out_log_date_file := none, out_log_date_file_line_position := some 0,
      out_log_date := now_date, init_date := now_date }
  else
    let out_file_path := latest_path class_name
    let fs1 := fsSet fs out_file_path []
    let out_date_file_path := dated_path class_name now_date
    let dc := (fsGet fs1 out_date_file_path).getD []
    let fs2 := fsSet fs1 out_date_file_path dc
    { fs := fs2, class_name := class_name,
      out_log_file := some { name := out_file_path, pos := 0, append := false },
      out_log_file_line_position := some 0,
      out_log_date_file := some { name := out_date_file_path, pos := dc.length, append := false },
      out_log_date_file_line_position := some 0,
      out_log_date := now_date, init_date := now_date }

/-- LogUtil::set_class_name. -/
def LogUtil.set_class_name (st : LogUtil) (class_name : String) : LogUtil :=
  { st with class_name := class_name }

/-- The level-filtering semantics the spec documents (claim C3): severities
ranked Error 1 < Info 2 < Warn 3 < Debug 4, a level enabled when its rank is
at most the threshold's rank, Off disabling everything and Trace (most
verbose) enabling everything. Written from the spec's words, to be compared
with the source's `levelEnabled`. -/
def specEnabledDoc (l : LogLevel) (f : LevelFilter) : Bool :=
  match f with
  | .Off => false
  | .Trace => true
  | .Error => l.toU32 ≤ LogLevel.toU32 .Error
  | .Warn => l.toU32 ≤ LogLevel.toU32 .Warn
  | .Info => l.toU32 ≤ LogLevel.toU32 .Info
  | .Debug => l.toU32 ≤ LogLevel.toU32 .Debug

/-- Rendered timestamps are always 19 characters wide. -/
theorem timestamp_length (t : DateTime) : t.timestamp.length = 19 := rfl

/-- Length of a written line in terms of the shared layout. -/
theorem log_line_length (ts label msg : String) :
    (log_line ts label msg).length = ts.length + label.length + msg.length + 4 := by
  have h1 : "[".length = 1 := rfl
  have h2 : " ".length = 1 := rfl
  have h3 : "] ".length = 2 := rfl
  simp [log_line, String.length_append, h1, h2, h3]
  omega

/-- The sample-timestamp prefix length is label length plus 23. -/
theorem calculate_log_prefix_len_eq (l : LogLevel) :
    calculate_log_prefix_len l = l.display.length + 23 := by
  have h1 : "[2024-05-08 12:24:05 ".length = 21 := rfl
  have h2 : "] ".length = 2 := rfl
  simp [calculate_log_prefix_len, String.length_append, h1, h2]
  omega

/-- Looking up the path just bound. -/
theorem fsGet_fsSet_self (fs : FS) (n : String) (c : List Char) :
    fsGet (fsSet fs n c) n = some c := by
  simp [fsGet, fsSet]

/-- Binding one path leaves the others unchanged. -/
theorem fsGet_fsSet_ne (fs : FS) (n m : String) (c : List Char) (h : n ≠ m) :
    fsGet (fsSet fs n c) m = fsGet fs m := by
  simp [fsGet, fsSet, h]

/-- Length of an overwrite-in-place write. -/
theorem writeAt_length (c : List Char) (p : Nat) (s : List Char) :
    (writeAt c p s).length = max c.length (p + s.length) := by
  simp [writeAt, List.length_append, List.length_take, List.length_drop,
    List.length_replicate]
  omega

/-- The latest path and a dated path never collide (their lengths differ). -/
theorem latest_path_ne_dated_path (c : String) (d : Date) :
    latest_path c ≠ dated_path c d := by
  intro h
  have hl := congrArg String.length h
  simp [latest_path, dated_path, get_or_create_log_dir, Date.compact, pad2,
    pad4, String.length_append] at hl
  omega

/-- Wrapping u64 subtraction undoes an addition below 2^64. -/
theorem wsub_add_self (a b : Nat) (ha : a < 2 ^ 64) : wsub (a + b) b = a := by
  simp [wsub]
  omega

/-- Sample clock instants and a sample writer used by concrete runs. -/
def sampleDate : Date :=
  { year := 2024, month := 5, day := 8 }

/-- Sample instant on sampleDate. -/
def sampleNow : DateTime :=
  { date := sampleDate, hour := 12, minute := 24, second := 5 }

/-- The following calendar day. -/
def nextDate : Date :=
  { year := 2024, month := 5, day := 9 }

/-- Sample instant on nextDate. -/
def nextNow : DateTime :=
  { date := nextDate, hour := 1, minute := 2, second := 3 }

/-- A writer for channel "Svc" constructed on sampleDate over an empty
filesystem. -/
def sampleWriter : LogUtil :=
  LogUtil.new [] "Svc" sampleDate

/-- C7: fetch_max_level_from_env follows the documented case-sensitive
mapping: "info", "debug", "error", "warn" map to their filters, "off"
disables every level, "trace" enables every level, and every other value,
the unset variable included, yields Info. -/
theorem fetch_max_level_mapping :
    fetch_max_level_from_env (some "info") = .Info ∧
    fetch_max_level_from_env (some "debug") = .Debug ∧
    fetch_max_level_from_env (some "error") = .Error ∧
    fetch_max_level_from_env (some "warn") = .Warn ∧
    fetch_max_level_from_env (some "off") = .Off ∧
    (∀ l : LogLevel, levelEnabled l (fetch_max_level_from_env (some "off")) = false) ∧
    fetch_max_level_from_env (some "trace") = .Trace ∧
    (∀ l : LogLevel, levelEnabled l (fetch_max_level_from_env (some "trace")) = true) ∧
    fetch_max_level_from_env none = .Info ∧
    (∀ s : String, s ≠ "info" → s ≠ "debug" → s ≠ "error" → s ≠ "warn" →
      s ≠ "off" → s ≠ "trace" → fetch_max_level_from_env (some s) = .Info) := by
  refine ⟨rfl, rfl, rfl, rfl, rfl, ?_, rfl, ?_, rfl, ?_⟩
  · intro l; cases l <;> rfl
  · intro l; cases l <;> rfl
  · intro s h1 h2 h3 h4 h5 h6
    simp [fetch_max_level_from_env, h1, h2, h3, h4, h5, h6]

/-- Witness for C7: an unrecognized (wrong-case) value falls back to Info,
and "off" disables the Error level. -/
theorem fetch_max_level_mapping_witness :
    fetch_max_level_from_env (some "INFO") = .Info ∧
    levelEnabled .Error (fetch_max_level_from_env (some "off")) = false := by
  constructor
  · exact fetch_max_level_mapping.2.2.2.2.2.2.2.2.2 "INFO" (by decide) (by decide)
      (by decide) (by decide) (by decide) (by decide)
  · exact fetch_max_level_mapping.2.2.2.2.2.1 .Error

/-- C10: set_class_name changes only the stored channel name; the filesystem,
both file handles (hence the paths subsequent writes target), both stored
cursors, the open date and the init date are untouched. -/
theorem set_class_name_frame (st : LogUtil) (n : String) :
    (st.set_class_name n).class_name = n ∧
    (st.set_class_name n).fs = st.fs ∧
    (st.set_class_name n).out_log_file = st.out_log_file ∧
    (st.set_class_name n).out_log_file_line_position = st.out_log_file_line_position ∧
    (st.set_class_name n).out_log_date_file = st.out_log_date_file ∧
    (st.set_class_name n).out_log_date_file_line_position = st.out_log_date_file_line_position ∧
    (st.set_class_name n).out_log_date = st.out_log_date ∧
    (st.set_class_name n).init_date = st.init_date :=
  ⟨rfl, rfl, rfl, rfl, rfl, rfl, rfl, rfl⟩

/-- C8: injected seek/write/stream_position failures on the already-open
handles never change the console output of a progress or record write, and
both calls still complete (they are total functions into states): the
failing file operation is silently discarded. -/
theorem write_errors_silent_console_unaffected
    (maxLevel : LevelFilter) (now : DateTime) (e : ProgressErrs) (st : LogUtil)
    (l : LogLevel) (msg : String) (stop : Bool) (isRelease : Bool)
    (er : RecordErrs) (str : LogUtil) (rec : LRecord) :
    (output_progress_msg maxLevel now e st l msg stop).2 =
      (output_progress_msg maxLevel now noProgressErrs st l msg stop).2 ∧
    (LogUtil.log isRelease now er str rec).2 =
      (LogUtil.log isRelease now noRecordErrs str rec).2 := by
  constructor
  · by_cases h : l.toU32 ≤ maxLevel.toU32 <;> simp [output_progress_msg, h]
  · simp [LogUtil.log]

/-- C3 counterexample: under the documented ranking Error 1 < Info 2 < Warn 3
< Debug 4, a Warn progress write is disabled at threshold Info, yet the code
emits console output and touches the files, because the gate compares the
LogLevel discriminant 3 against the LevelFilter discriminant 3 of Info. -/
theorem doc_rank_filtering_mismatch_cex :
    specEnabledDoc .Warn .Info = false ∧
    (output_progress_msg .Info sampleNow noProgressErrs sampleWriter .Warn "x" false).2 ≠ "" ∧
    (output_progress_msg .Info sampleNow noProgressErrs sampleWriter .Warn "x" false).1.fs ≠
      sampleWriter.fs := by
  refine ⟨rfl, ?_, ?_⟩ <;> decide

/-- C3 amended: a progress write is enabled exactly when the LogLevel
discriminant (Error 1, Info 2, Warn 3, Debug 4) is at most the LevelFilter
discriminant (Off 0, Error 1, Warn 2, Info 3, Debug 4, Trace 5); a disabled
write returns the state unchanged with no console and no file output, and an
enabled write proceeds to produce the console line. -/
theorem progress_level_gate_semantics (f : LevelFilter) (now : DateTime)
    (e : ProgressErrs) (st : LogUtil) (l : LogLevel) (msg : String) (stop : Bool) :
    (levelEnabled l f = false →
      output_progress_msg f now e st l msg stop = (st, "")) ∧
    (levelEnabled l f = true →
      (output_progress_msg f now e st l msg stop).2 =
        "\r" ++ log_line now.timestamp (consoleLabel l) msg) := by
  constructor
  · intro h
    have h' : ¬ l.toU32 ≤ f.toU32 := by simpa [levelEnabled] using h
    simp [output_progress_msg, h']
  · intro h
    have h' : l.toU32 ≤ f.toU32 := by simpa [levelEnabled] using h
    simp [output_progress_msg, h']

/-- Witness for C3 amended: a Debug write under threshold Info is dropped
whole, and an Info write under threshold Info produces the console line. -/
theorem progress_level_gate_semantics_witness :
    output_progress_msg .Info sampleNow noProgressErrs sampleWriter .Debug "x" false =
      (sampleWriter, "") ∧
    (output_progress_msg .Info sampleNow noProgressErrs sampleWriter .Info "x" false).2 =
      "\r" ++ log_line sampleNow.timestamp (consoleLabel .Info) "x" := by
  constructor
  · exact (progress_level_gate_semantics .Info sampleNow noProgressErrs sampleWriter
      .Debug "x" false).1 (by decide)
  · exact (progress_level_gate_semantics .Info sampleNow noProgressErrs sampleWriter
      .Info "x" false).2 (by decide)

/-- A writer state with both backing files present, as construction with a
non-empty channel name produces. -/
def mkWriter (fs : FS) (cls : String) (hL : Handle) (lpL : Nat)
    (hD : Handle) (lpD : Nat) (d dI : Date) : LogUtil :=
  { fs := fs, class_name := cls,
    out_log_file := some hL, out_log_file_line_position := some lpL,
    out_log_date_file := some hD, out_log_date_file_line_position := some lpD,
    out_log_date := d, init_date := dI }

/-- One enabled progress write on a same-date writer whose two handles were
opened without append mode, with every file operation succeeding: both files
receive the formatted line at their stored cursor, stream positions advance
past it, and each cursor becomes the new stream position (terminal) or is
rewound by message length plus sample-prefix length (non-terminal). -/
theorem output_progress_msg_run (f : LevelFilter) (now : DateTime)
    (fs : FS) (cls nL nD : String) (pL lpL pD lpD : Nat) (dI : Date)
    (l : LogLevel) (msg : String) (stop : Bool)
    (hgate : l.toU32 ≤ f.toU32) (hnames : nL ≠ nD) :
    output_progress_msg f now noProgressErrs
      (mkWriter fs cls ⟨nL, pL, false⟩ lpL ⟨nD, pD, false⟩ lpD now.date dI)
      l msg stop =
    (mkWriter
      (fsSet (fsSet fs nL (writeAt ((fsGet fs nL).getD []) lpL
          (log_line now.timestamp l.display msg).data))
        nD (writeAt ((fsGet fs nD).getD []) lpD
          (log_line now.timestamp l.display msg).data))
      cls
      ⟨nL, lpL + (log_line now.timestamp l.display msg).data.length, false⟩
      (if stop then lpL + (log_line now.timestamp l.display msg).data.length
       else wsub (lpL + (log_line now.timestamp l.display msg).data.length)
         (msg.length + ("[2024-05-08 12:24:05 " ++ l.display ++ "] ").length))
      ⟨nD, lpD + (log_line now.timestamp l.display msg).data.length, false⟩
      (if stop then lpD + (log_line now.timestamp l.display msg).data.length
       else wsub (lpD + (log_line now.timestamp l.display msg).data.length)
         (msg.length + calculate_log_prefix_len l))
      now.date dI,
     "\r" ++ log_line now.timestamp (consoleLabel l) msg) := by
  simp [output_progress_msg, progress_rollover, progress_file_write, hWrite,
    mkWriter, hgate, fsGet_fsSet_ne _ _ _ _ hnames, noProgressErrs, noFileErrs]

/-- One record write on a same-date writer whose two handles were opened
without append mode, with every file operation succeeding: both files receive
the newline-terminated line at their current stream position (the stored
cursors are not consulted), and each cursor becomes the resulting stream
position. -/
theorem log_run (isRelease : Bool) (now : DateTime)
    (fs : FS) (cls nL nD : String) (pL lpL pD lpD : Nat) (dI : Date)
    (rec : LRecord) (hnames : nL ≠ nD) :
    (LogUtil.log isRelease now noRecordErrs
      (mkWriter fs cls ⟨nL, pL, false⟩ lpL ⟨nD, pD, false⟩ lpD now.date dI) rec).1 =
    mkWriter
      (fsSet (fsSet fs nL (writeAt ((fsGet fs nL).getD []) pL
          (log_line now.timestamp rec.level.display rec.msg ++ "\n").data))
        nD (writeAt ((fsGet fs nD).getD []) pD
          (log_line now.timestamp rec.level.display rec.msg ++ "\n").data))
      cls
      ⟨nL, pL + (log_line now.timestamp rec.level.display rec.msg ++ "\n").data.length, false⟩
      (pL + (log_line now.timestamp rec.level.display rec.msg ++ "\n").data.length)
      ⟨nD, pD + (log_line now.timestamp rec.level.display rec.msg ++ "\n").data.length, false⟩
      (pD + (log_line now.timestamp rec.level.display rec.msg ++ "\n").data.length)
      now.date dI := by
  simp [LogUtil.log, record_rollover, record_file_write, hWrite, mkWriter,
    fsGet_fsSet_ne _ _ _ _ hnames, noRecordErrs]

/-- In release builds both location strings are empty, so the console line of
a record write is just the shared layout with the console label. -/
theorem log_console_release (now : DateTime) (e : RecordErrs) (st : LogUtil)
    (rec : LRecord) :
    (LogUtil.log true now e st rec).2 =
    log_line now.timestamp (recordConsoleLabel rec.level) rec.msg ++ "\n" := by
  have hs : ("" : String) ++ rec.msg = rec.msg := rfl
  cases rec with
  | mk lv m mp ln => cases lv <;> simp [LogUtil.log, recordConsoleLabel]

/-- The written progress line is exactly message length plus the
sample-timestamp prefix length, because timestamps are fixed-width. -/
theorem progress_text_len (now : DateTime) (l : LogLevel) (msg : String) :
    (log_line now.timestamp l.display msg).data.length =
    msg.length + calculate_log_prefix_len l := by
  have h : (log_line now.timestamp l.display msg).data.length =
      (log_line now.timestamp l.display msg).length := rfl
  rw [h, log_line_length, timestamp_length, calculate_log_prefix_len_eq]
  omega

/-- The latest-file block's inline prefix-length expression is the same
computation as calculate_log_prefix_len. -/
theorem sample_prefix_len_eq (l : LogLevel) :
    ("[2024-05-08 12:24:05 " ++ l.display ++ "] ").length =
    calculate_log_prefix_len l := rfl

/-- C2 counterexample: two enabled non-terminal progress writes of different
messages, the second one longer ("a" then "bb"): the second write starts at
the same byte offset 0, but the latest file grows from 28 to 29 bytes,
refuting "does not grow the file" for arbitrary different messages. -/
theorem progress_overwrite_longer_message_grows_file_cex :
    ((fsGet ((output_progress_msg .Info sampleNow noProgressErrs sampleWriter
        .Info "a" false).1).fs (latest_path "Svc")).getD []).length = 28 ∧
    ((fsGet ((output_progress_msg .Info sampleNow noProgressErrs
        (output_progress_msg .Info sampleNow noProgressErrs sampleWriter
          .Info "a" false).1 .Info "bb" false).1).fs
        (latest_path "Svc")).getD []).length = 29 := by
  constructor <;> decide

/-- C2 amended: for every enabled progress write on each of the two files
(handles opened without append mode, cursors below 2^64, all operations
succeeding): with is_terminal false the stored cursor becomes the new stream
position minus (message length plus rendered sample-prefix length), which is
exactly the byte offset where the just-written line began; a second
non-terminal progress write of a different message starts at that same byte
offset, and the file does not grow provided the second message is no longer
than the first; with is_terminal true the stored cursor becomes the new
stream position. -/
theorem progress_cursor_rewind_exact (f : LevelFilter) (now : DateTime)
    (fs : FS) (cls nL nD : String) (pL lpL pD lpD : Nat) (dI : Date)
    (l : LogLevel) (m1 m2 : String)
    (hgate : l.toU32 ≤ f.toU32) (hnames : nL ≠ nD)
    (hlpL : lpL < 2 ^ 64) (hlpD : lpD < 2 ^ 64) (hlen : m2.length ≤ m1.length) :
    ((output_progress_msg f now noProgressErrs
        (mkWriter fs cls ⟨nL, pL, false⟩ lpL ⟨nD, pD, false⟩ lpD now.date dI)
        l m1 false).1).out_log_file_line_position = some lpL ∧
    ((output_progress_msg f now noProgressErrs
        (mkWriter fs cls ⟨nL, pL, false⟩ lpL ⟨nD, pD, false⟩ lpD now.date dI)
        l m1 false).1).out_log_date_file_line_position = some lpD ∧
    ((output_progress_msg f now noProgressErrs
        (mkWriter fs cls ⟨nL, pL, false⟩ lpL ⟨nD, pD, false⟩ lpD now.date dI)
        l m1 true).1).out_log_file_line_position =
      some (lpL + (log_line now.timestamp l.display m1).data.length) ∧
    ((output_progress_msg f now noProgressErrs
        (mkWriter fs cls ⟨nL, pL, false⟩ lpL ⟨nD, pD, false⟩ lpD now.date dI)
        l m1 true).1).out_log_date_file_line_position =
      some (lpD + (log_line now.timestamp l.display m1).data.length) ∧
    fsGet ((output_progress_msg f now noProgressErrs
        ((output_progress_msg f now noProgressErrs
          (mkWriter fs cls ⟨nL, pL, false⟩ lpL ⟨nD, pD, false⟩ lpD now.date dI)
          l m1 false).1) l m2 false).1).fs nL =
      some (writeAt (writeAt ((fsGet fs nL).getD []) lpL
          (log_line now.timestamp l.display m1).data) lpL
          (log_line now.timestamp l.display m2).data) ∧
    ((fsGet ((output_progress_msg f now noProgressErrs
        ((output_progress_msg f now noProgressErrs
          (mkWriter fs cls ⟨nL, pL, false⟩ lpL ⟨nD, pD, false⟩ lpD now.date dI)
          l m1 false).1) l m2 false).1).fs nL).getD []).length =
      ((fsGet ((output_progress_msg f now noProgressErrs
          (mkWriter fs cls ⟨nL, pL, false⟩ lpL ⟨nD, pD, false⟩ lpD now.date dI)
          l m1 false).1).fs nL).getD []).length := by
  have hw1L : wsub (lpL + (log_line now.timestamp l.display m1).data.length)
      (m1.length + ("[2024-05-08 12:24:05 " ++ l.display ++ "] ").length) = lpL := by
    rw [sample_prefix_len_eq, progress_text_len]
    exact wsub_add_self lpL _ hlpL
  have hw1D : wsub (lpD + (log_line now.timestamp l.display m1).data.length)
      (m1.length + calculate_log_prefix_len l) = lpD := by
    rw [progress_text_len]
    exact wsub_add_self lpD _ hlpD
  have hif : ∀ (a b : Nat), (if false = true then a else b) = b := fun a b => rfl
  have hift : ∀ (a b : Nat), (if true = true then a else b) = a := fun a b => rfl
  refine ⟨?_, ?_, ?_, ?_, ?_, ?_⟩
  · rw [output_progress_msg_run f now fs cls nL nD pL lpL pD lpD dI l m1 false
      hgate hnames]
    simp only [mkWriter, hif, hw1L]
  · rw [output_progress_msg_run f now fs cls nL nD pL lpL pD lpD dI l m1 false
      hgate hnames]
    simp only [mkWriter, hif, hw1D]
  · rw [output_progress_msg_run f now fs cls nL nD pL lpL pD lpD dI l m1 true
      hgate hnames]
    simp [mkWriter, hift]
  · rw [output_progress_msg_run f now fs cls nL nD pL lpL pD lpD dI l m1 true
      hgate hnames]
    simp [mkWriter, hift]
  · rw [output_progress_msg_run f now fs cls nL nD pL lpL pD lpD dI l m1 false
      hgate hnames]
    simp only [hif, hw1L, hw1D]
    rw [output_progress_msg_run f now _ cls nL nD
      (lpL + (log_line now.timestamp l.display m1).data.length) lpL
      (lpD + (log_line now.timestamp l.display m1).data.length) lpD dI l m2 false
      hgate hnames]
    simp [mkWriter, fsGet_fsSet_self, fsGet_fsSet_ne _ _ _ _ hnames,
      fsGet_fsSet_ne _ _ _ _ (Ne.symm hnames)]
  · rw [output_progress_msg_run f now fs cls nL nD pL lpL pD lpD dI l m1 false
      hgate hnames]
    simp only [hif, hw1L, hw1D]
    rw [output_progress_msg_run f now _ cls nL nD
      (lpL + (log_line now.timestamp l.display m1).data.length) lpL
      (lpD + (log_line now.timestamp l.display m1).data.length) lpD dI l m2 false
      hgate hnames]
    simp only [mkWriter, fsGet_fsSet_self, fsGet_fsSet_ne _ _ _ _ hnames,
      fsGet_fsSet_ne _ _ _ _ (Ne.symm hnames), Option.getD_some]
    simp only [writeAt_length]
    have h1 := progress_text_len now l m1
    have h2 := progress_text_len now l m2
    omega

/-- Witness for C2 amended at concrete inputs: a non-terminal Info progress
write of "ab" on a fresh same-day writer leaves the latest cursor at the
line's start offset 0. -/
theorem progress_cursor_rewind_exact_witness :
    ((output_progress_msg .Info sampleNow noProgressErrs
        (mkWriter [] "Svc" ⟨latest_path "Svc", 0, false⟩ 0
          ⟨dated_path "Svc" sampleDate, 0, false⟩ 0 sampleNow.date sampleDate)
        .Info "ab" false).1).out_log_file_line_position = some 0 :=
  (progress_cursor_rewind_exact .Info sampleNow [] "Svc" (latest_path "Svc")
    (dated_path "Svc" sampleDate) 0 0 0 0 sampleDate .Info "ab" "c" (by decide)
    (latest_path_ne_dated_path "Svc" sampleDate) (by decide) (by decide)
    (by decide)).1

/-- C9 counterexample: a Warn progress write sends "[ts WARN] x" to the
console but writes "[ts WARNING] x" to the latest file: the level labels of
console and file differ, so the file text is not the console layout merely
without colors. -/
theorem warn_label_console_file_mismatch_cex :
    (output_progress_msg .Info sampleNow noProgressErrs sampleWriter .Warn "x" false).2 =
      "\r" ++ log_line sampleNow.timestamp "WARN" "x" ∧
    fsGet (output_progress_msg .Info sampleNow noProgressErrs sampleWriter
        .Warn "x" false).1.fs (latest_path "Svc") =
      some (log_line sampleNow.timestamp "WARNING" "x").data ∧
    log_line sampleNow.timestamp "WARN" "x" ≠ log_line sampleNow.timestamp "WARNING" "x" := by
  refine ⟨?_, ?_, ?_⟩ <;> decide

/-- C9 amended: every write renders the same "[<ts> <LEVEL>] <message>"
layout to console and both files (the model already omits color codes, and
record lines are newline-terminated while progress lines are not), and the
level labels agree — except that a Warn progress write files "WARNING" while
the console shows "WARN", and excepting the console module-path prefix of
non-release record writes (release builds shown here) and Trace records
(whose console label is "INFO"). -/
theorem file_console_layout_agreement (f : LevelFilter) (now : DateTime)
    (fs : FS) (cls nL nD : String) (pL lpL pD lpD : Nat) (dI : Date)
    (l : LogLevel) (msg : String) (stop : Bool) (rec : LRecord)
    (hgate : l.toU32 ≤ f.toU32) (hnames : nL ≠ nD) :
    (output_progress_msg f now noProgressErrs
        (mkWriter fs cls ⟨nL, pL, false⟩ lpL ⟨nD, pD, false⟩ lpD now.date dI)
        l msg stop).2 = "\r" ++ log_line now.timestamp (consoleLabel l) msg ∧
    fsGet (output_progress_msg f now noProgressErrs
        (mkWriter fs cls ⟨nL, pL, false⟩ lpL ⟨nD, pD, false⟩ lpD now.date dI)
        l msg stop).1.fs nL =
      some (writeAt ((fsGet fs nL).getD []) lpL
        (log_line now.timestamp l.display msg).data) ∧
    fsGet (output_progress_msg f now noProgressErrs
        (mkWriter fs cls ⟨nL, pL, false⟩ lpL ⟨nD, pD, false⟩ lpD now.date dI)
        l msg stop).1.fs nD =
      some (writeAt ((fsGet fs nD).getD []) lpD
        (log_line now.timestamp l.display msg).data) ∧
    (l ≠ .Warn → consoleLabel l = l.display) ∧
    consoleLabel .Warn = "WARN" ∧
    LogLevel.display .Warn = "WARNING" ∧
    (LogUtil.log true now noRecordErrs
        (mkWriter fs cls ⟨nL, pL, false⟩ lpL ⟨nD, pD, false⟩ lpD now.date dI)
        rec).2 =
      log_line now.timestamp (recordConsoleLabel rec.level) rec.msg ++ "\n" ∧
    fsGet (LogUtil.log true now noRecordErrs
        (mkWriter fs cls ⟨nL, pL, false⟩ lpL ⟨nD, pD, false⟩ lpD now.date dI)
        rec).1.fs nL =
      some (writeAt ((fsGet fs nL).getD []) pL
        (log_line now.timestamp rec.level.display rec.msg ++ "\n").data) ∧
    fsGet (LogUtil.log true now noRecordErrs
        (mkWriter fs cls ⟨nL, pL, false⟩ lpL ⟨nD, pD, false⟩ lpD now.date dI)
        rec).1.fs nD =
      some (writeAt ((fsGet fs nD).getD []) pD
        (log_line now.timestamp rec.level.display rec.msg ++ "\n").data) ∧
    (rec.level ≠ .Trace → recordConsoleLabel rec.level = rec.level.display) := by
  refine ⟨?_, ?_, ?_, ?_, rfl, rfl, ?_, ?_, ?_, ?_⟩
  · rw [output_progress_msg_run f now fs cls nL nD pL lpL pD lpD dI l msg stop
      hgate hnames]
  · rw [output_progress_msg_run f now fs cls nL nD pL lpL pD lpD dI l msg stop
      hgate hnames]
    simp [mkWriter, fsGet_fsSet_self, fsGet_fsSet_ne _ _ _ _ (Ne.symm hnames)]
  · rw [output_progress_msg_run f now fs cls nL nD pL lpL pD lpD dI l msg stop
      hgate hnames]
    simp [mkWriter, fsGet_fsSet_self]
  · intro h
    cases l
    · rfl
    · exact absurd rfl h
    · rfl
    · rfl
  · exact log_console_release now noRecordErrs _ rec
  · rw [log_run true now fs cls nL nD pL lpL pD lpD dI rec hnames]
    simp [mkWriter, fsGet_fsSet_self, fsGet_fsSet_ne _ _ _ _ (Ne.symm hnames)]
  · rw [log_run true now fs cls nL nD pL lpL pD lpD dI rec hnames]
    simp [mkWriter, fsGet_fsSet_self]
  · intro h
    cases hl : rec.level
    · rfl
    · rfl
    · rfl
    · rfl
    · exact absurd hl h

/-- Witness for C9 amended: the Info progress write of "Test" produces the
console line with the Info label, which coincides with the file label. -/
theorem file_console_layout_agreement_witness :
    (output_progress_msg .Info sampleNow noProgressErrs
        (mkWriter [] "Svc" ⟨latest_path "Svc", 0, false⟩ 0
          ⟨dated_path "Svc" sampleDate, 0, false⟩ 0 sampleNow.date sampleDate)
        .Info "Test" false).2 =
      "\r" ++ log_line sampleNow.timestamp (consoleLabel .Info) "Test" ∧
    consoleLabel .Info = LogLevel.display .Info := by
  have h := file_console_layout_agreement .Info sampleNow [] "Svc" (latest_path "Svc")
    (dated_path "Svc" sampleDate) 0 0 0 0 sampleDate .Info "Test" false
    { level := .Info, msg := "Test", module_path := none, line := none }
    (by decide) (latest_path_ne_dated_path "Svc" sampleDate)
  exact ⟨h.1, h.2.2.2.1 (by decide)⟩

/-- Writing at the exact end of the contents appends. -/
theorem writeAt_append (c s : List Char) : writeAt c c.length s = c ++ s := by
  simp [writeAt]

/-- C4 counterexample: after a 30-character non-terminal progress write and
then an empty non-terminal progress write, the dated file holds 57 bytes and
its handle sits at position 27; the following record write (an empty message,
28 bytes with prefix and newline) lands inside the existing extent, so the
dated file's length stays 57: a record write does not strictly increase it. -/
theorem record_write_after_progress_no_strict_growth_cex :
    ((fsGet ((output_progress_msg .Info sampleNow noProgressErrs
        (output_progress_msg .Info sampleNow noProgressErrs sampleWriter
          .Info "aaaaaaaaaaaaaaaaaaaaaaaaaaaaaa" false).1
        .Info "" false).1).fs (dated_path "Svc" sampleDate)).getD []).length = 57 ∧
    ((fsGet ((LogUtil.log true sampleNow noRecordErrs
        (output_progress_msg .Info sampleNow noProgressErrs
          (output_progress_msg .Info sampleNow noProgressErrs sampleWriter
            .Info "aaaaaaaaaaaaaaaaaaaaaaaaaaaaaa" false).1
          .Info "" false).1
        { level := .Info, msg := "", module_path := none, line := none }).1).fs
        (dated_path "Svc" sampleDate)).getD []).length = 57 := by
  constructor <;> decide

/-- C4 amended: every record write writes the newline-terminated line to each
file at that file's current stream position (not at the stored cursor), then
sets the stored cursor to the resulting stream position; the dated file is
never truncated by it (its length never decreases), and its length strictly
increases whenever the dated handle's stream position is at end-of-file — in
particular across any sequence of record-only writes. -/
theorem record_write_appends_at_stream_position (isRelease : Bool)
    (now : DateTime) (fs : FS) (cls nL nD : String) (pL lpL pD lpD : Nat)
    (dI : Date) (rec : LRecord) (hnames : nL ≠ nD) :
    ((LogUtil.log isRelease now noRecordErrs
        (mkWriter fs cls ⟨nL, pL, false⟩ lpL ⟨nD, pD, false⟩ lpD now.date dI)
        rec).1).out_log_file_line_position =
      some (pL + (log_line now.timestamp rec.level.display rec.msg ++ "\n").data.length) ∧
    ((LogUtil.log isRelease now noRecordErrs
        (mkWriter fs cls ⟨nL, pL, false⟩ lpL ⟨nD, pD, false⟩ lpD now.date dI)
        rec).1).out_log_date_file_line_position =
      some (pD + (log_line now.timestamp rec.level.display rec.msg ++ "\n").data.length) ∧
    fsGet ((LogUtil.log isRelease now noRecordErrs
        (mkWriter fs cls ⟨nL, pL, false⟩ lpL ⟨nD, pD, false⟩ lpD now.date dI)
        rec).1).fs nL =
      some (writeAt ((fsGet fs nL).getD []) pL
        (log_line now.timestamp rec.level.display rec.msg ++ "\n").data) ∧
    fsGet ((LogUtil.log isRelease now noRecordErrs
        (mkWriter fs cls ⟨nL, pL, false⟩ lpL ⟨nD, pD, false⟩ lpD now.date dI)
        rec).1).fs nD =
      some (writeAt ((fsGet fs nD).getD []) pD
        (log_line now.timestamp rec.level.display rec.msg ++ "\n").data) ∧
    (log_line now.timestamp rec.level.display rec.msg ++ "\n").data.getLast? =
      some '\n' ∧
    ((fsGet fs nD).getD []).length ≤
      ((fsGet ((LogUtil.log isRelease now noRecordErrs
        (mkWriter fs cls ⟨nL, pL, false⟩ lpL ⟨nD, pD, false⟩ lpD now.date dI)
        rec).1).fs nD).getD []).length ∧
    (pD = ((fsGet fs nD).getD []).length →
      ((fsGet fs nD).getD []).length <
        ((fsGet ((LogUtil.log isRelease now noRecordErrs
          (mkWriter fs cls ⟨nL, pL, false⟩ lpL ⟨nD, pD, false⟩ lpD now.date dI)
          rec).1).fs nD).getD []).length) := by
  have hdata : (log_line now.timestamp rec.level.display rec.msg ++ "\n").data =
      (log_line now.timestamp rec.level.display rec.msg).data ++ ['\n'] := by
    rfl
  refine ⟨?_, ?_, ?_, ?_, ?_, ?_, ?_⟩
  · rw [log_run isRelease now fs cls nL nD pL lpL pD lpD dI rec hnames]
    rfl
  · rw [log_run isRelease now fs cls nL nD pL lpL pD lpD dI rec hnames]
    rfl
  · rw [log_run isRelease now fs cls nL nD pL lpL pD lpD dI rec hnames]
    simp [mkWriter, fsGet_fsSet_self, fsGet_fsSet_ne _ _ _ _ (Ne.symm hnames)]
  · rw [log_run isRelease now fs cls nL nD pL lpL pD lpD dI rec hnames]
    simp [mkWriter, fsGet_fsSet_self]
  · rw [hdata]
    exact List.getLast?_concat _
  · rw [log_run isRelease now fs cls nL nD pL lpL pD lpD dI rec hnames]
    simp only [mkWriter, fsGet_fsSet_self, Option.getD_some, writeAt_length]
    omega
  · intro hpD
    rw [log_run isRelease now fs cls nL nD pL lpL pD lpD dI rec hnames]
    simp only [mkWriter, fsGet_fsSet_self, Option.getD_some, writeAt_length]
    have hlen : 0 < (log_line now.timestamp rec.level.display rec.msg ++ "\n").data.length := by
      rw [hdata]
      simp
    omega

/-- Witness for C4 amended: a record write on a fresh same-day writer strictly
grows the dated file (handle at end-of-file position 0 of the empty file). -/
theorem record_write_appends_at_stream_position_witness :
    ((fsGet ([] : FS) (dated_path "Svc" sampleDate)).getD []).length <
      ((fsGet ((LogUtil.log true sampleNow noRecordErrs
        (mkWriter [] "Svc" ⟨latest_path "Svc", 0, false⟩ 0
          ⟨dated_path "Svc" sampleDate, 0, false⟩ 0 sampleNow.date sampleDate)
        { level := .Info, msg := "Test", module_path := none, line := none }).1).fs
        (dated_path "Svc" sampleDate)).getD []).length :=
  (record_write_appends_at_stream_position true sampleNow [] "Svc"
    (latest_path "Svc") (dated_path "Svc" sampleDate) 0 0 0 0 sampleDate
    { level := .Info, msg := "Test", module_path := none, line := none }
    (latest_path_ne_dated_path "Svc" sampleDate)).2.2.2.2.2.2 (by decide)

/-- C5 counterexample: two non-terminal progress writes in the same day
("aaa" then "b"): the second one overwrites bytes already present in the
dated file — the content changes at equal length 30 (byte 27 turns from 'a'
into 'b'), so the dated file is not append-only. -/
theorem dated_file_progress_overwrite_cex :
    fsGet ((output_progress_msg .Info sampleNow noProgressErrs sampleWriter
        .Info "aaa" false).1).fs (dated_path "Svc" sampleDate) =
      some (log_line sampleNow.timestamp "INFO" "aaa").data ∧
    fsGet ((output_progress_msg .Info sampleNow noProgressErrs
        (output_progress_msg .Info sampleNow noProgressErrs sampleWriter
          .Info "aaa" false).1 .Info "b" false).1).fs (dated_path "Svc" sampleDate) =
      some ((log_line sampleNow.timestamp "INFO" "b").data ++ ['a', 'a']) ∧
    (log_line sampleNow.timestamp "INFO" "aaa").data ≠
      (log_line sampleNow.timestamp "INFO" "b").data ++ ['a', 'a'] ∧
    ((log_line sampleNow.timestamp "INFO" "aaa").data).length = 30 ∧
    ((log_line sampleNow.timestamp "INFO" "b").data ++ ['a', 'a']).length = 30 := by
  refine ⟨?_, ?_, ?_, ?_, ?_⟩ <;> decide

/-- C5 amended: within one calendar day no operation truncates the dated
file: construction with a non-empty name preserves its contents, and both an
enabled progress write and a record write never decrease its length (record
writes append at the stream position; progress writes may overwrite the
previous progress line in place, as the counterexample shows, but never
shorten the file). -/
theorem dated_file_never_truncated (f : LevelFilter) (now : DateTime)
    (fs : FS) (cls nL nD : String) (pL lpL pD lpD : Nat) (dI : Date)
    (l : LogLevel) (msg : String) (stop : Bool) (rec : LRecord)
    (isRelease : Bool)
    (hcls : cls ≠ "") (hgate : l.toU32 ≤ f.toU32) (hnames : nL ≠ nD) :
    fsGet (LogUtil.new fs cls now.date).fs (dated_path cls now.date) =
      some ((fsGet fs (dated_path cls now.date)).getD []) ∧
    ((fsGet fs nD).getD []).length ≤
      ((fsGet ((output_progress_msg f now noProgressErrs
        (mkWriter fs cls ⟨nL, pL, false⟩ lpL ⟨nD, pD, false⟩ lpD now.date dI)
        l msg stop).1).fs nD).getD []).length ∧
    ((fsGet fs nD).getD []).length ≤
      ((fsGet ((LogUtil.log isRelease now noRecordErrs
        (mkWriter fs cls ⟨nL, pL, false⟩ lpL ⟨nD, pD, false⟩ lpD now.date dI)
        rec).1).fs nD).getD []).length := by
  refine ⟨?_, ?_, ?_⟩
  · have hne := latest_path_ne_dated_path cls now.date
    simp [LogUtil.new, hcls, fsGet_fsSet_self, fsGet_fsSet_ne _ _ _ _ hne]
  · rw [output_progress_msg_run f now fs cls nL nD pL lpL pD lpD dI l msg stop
      hgate hnames]
    simp only [mkWriter, fsGet_fsSet_self, Option.getD_some, writeAt_length]
    omega
  · rw [log_run isRelease now fs cls nL nD pL lpL pD lpD dI rec hnames]
    simp only [mkWriter, fsGet_fsSet_self, Option.getD_some, writeAt_length]
    omega

/-- Witness for C5 amended: a non-terminal Info progress write on a fresh
same-day writer does not shrink the dated file. -/
theorem dated_file_never_truncated_witness :
    ((fsGet ([] : FS) (dated_path "Svc" sampleDate)).getD []).length ≤
      ((fsGet ((output_progress_msg .Info sampleNow noProgressErrs
        (mkWriter [] "Svc" ⟨latest_path "Svc", 0, false⟩ 0
          ⟨dated_path "Svc" sampleDate, 0, false⟩ 0 sampleNow.date sampleDate)
        .Info "x" false).1).fs (dated_path "Svc" sampleDate)).getD []).length :=
  (dated_file_never_truncated .Info sampleNow [] "Svc" (latest_path "Svc")
    (dated_path "Svc" sampleDate) 0 0 0 0 sampleDate .Info "x" false
    { level := .Info, msg := "x", module_path := none, line := none } true
    (by decide) (by decide) (latest_path_ne_dated_path "Svc" sampleDate)).2.1

/-- C6: construction with the empty name yields a writer with no backing
files; with a non-empty name it truncates the latest file (any prior content
is discarded), opens or creates the dated file named with today's date
preserving its contents with the handle positioned at its end, initializes
both stored cursors to 0, and sets the open date (and init date) to today. -/
theorem new_initializes_writer (fs : FS) (cls : String) (d : Date) :
    (cls = "" →
      (LogUtil.new fs cls d).out_log_file = none ∧
      (LogUtil.new fs cls d).out_log_date_file = none ∧
      (LogUtil.new fs cls d).fs = fs) ∧
    (cls ≠ "" →
      fsGet (LogUtil.new fs cls d).fs (latest_path cls) = some [] ∧
      fsGet (LogUtil.new fs cls d).fs (dated_path cls d) =
        some ((fsGet fs (dated_path cls d)).getD []) ∧
      (LogUtil.new fs cls d).out_log_file =
        some { name := latest_path cls, pos := 0, append := false } ∧
      (LogUtil.new fs cls d).out_log_date_file =
        some { name := dated_path cls d,
               pos := ((fsGet fs (dated_path cls d)).getD []).length,
               append := false }) ∧
    (LogUtil.new fs cls d).out_log_file_line_position = some 0 ∧
    (LogUtil.new fs cls d).out_log_date_file_line_position = some 0 ∧
    (LogUtil.new fs cls d).out_log_date = d ∧
    (LogUtil.new fs cls d).init_date = d := by
  refine ⟨?_, ?_, ?_, ?_, ?_, ?_⟩
  · intro hc
    subst hc
    exact ⟨rfl, rfl, rfl⟩
  · intro hc
    have hne := latest_path_ne_dated_path cls d
    refine ⟨?_, ?_, ?_, ?_⟩ <;>
      simp [LogUtil.new, hc, fsGet_fsSet_self, fsGet_fsSet_ne _ _ _ _ hne,
        fsGet_fsSet_ne _ _ _ _ (Ne.symm hne)]
  · by_cases hc : cls = "" <;> simp [LogUtil.new, hc]
  · by_cases hc : cls = "" <;> simp [LogUtil.new, hc]
  · by_cases hc : cls = "" <;> simp [LogUtil.new, hc]
  · by_cases hc : cls = "" <;> simp [LogUtil.new, hc]

/-- Witness for C6: the empty name gives a file-less writer; "Svc" gives a
truncated latest file. -/
theorem new_initializes_writer_witness :
    (LogUtil.new [] "" sampleDate).out_log_file = none ∧
    fsGet (LogUtil.new [] "Svc" sampleDate).fs (latest_path "Svc") = some [] := by
  constructor
  · exact ((new_initializes_writer [] "" sampleDate).1 rfl).1
  · exact ((new_initializes_writer [] "Svc" sampleDate).2.1 (by decide)).1

/-- C1 counterexample: a terminal progress write of "hello" on day one leaves
the latest cursor at 32; a non-terminal progress write of "hi" on day two
triggers the rollover, yet after it the stored cursor is still 32, not 0, and
the freshly truncated latest file holds 32 NUL fill bytes before the new
line: the stored cursors are not reset by the rollover. -/
theorem progress_rollover_cursor_not_reset_cex :
    ((output_progress_msg .Info sampleNow noProgressErrs sampleWriter
        .Info "hello" true).1).out_log_file_line_position = some 32 ∧
    nextNow.date ≠ ((output_progress_msg .Info sampleNow noProgressErrs
        sampleWriter .Info "hello" true).1).out_log_date ∧
    ((output_progress_msg .Info nextNow noProgressErrs
        (output_progress_msg .Info sampleNow noProgressErrs sampleWriter
          .Info "hello" true).1 .Info "hi" false).1).out_log_date = nextNow.date ∧
    ((output_progress_msg .Info nextNow noProgressErrs
        (output_progress_msg .Info sampleNow noProgressErrs sampleWriter
          .Info "hello" true).1 .Info "hi" false).1).out_log_file_line_position =
      some 32 ∧
    fsGet ((output_progress_msg .Info nextNow noProgressErrs
        (output_progress_msg .Info sampleNow noProgressErrs sampleWriter
          .Info "hello" true).1 .Info "hi" false).1).fs (latest_path "Svc") =
      some (List.replicate 32 (Char.ofNat 0) ++
        (log_line nextNow.timestamp "INFO" "hi").data) ∧
    (32 : Nat) ≠ 0 := by
  refine ⟨?_, ?_, ?_, ?_, ?_, ?_⟩ <;> decide

/-- C1 amended: on any write (progress or record) against a writer with
backing files whose stored open date differs from the current date, the
rollover runs before any bytes are written: the latest file is replaced by a
newly opened truncated file, the dated file by a newly opened or created file
named with the new date (positioned at its end for writing), and the stored
open date becomes the current date — but the stored cursors are NOT reset:
the progress path's write then starts at the stale pre-call cursor (NUL
padding the truncated latest file up to it) and leaves the cursor there.
Content written before the rollover is still absent from the post-rollover
latest file: its content after the call is determined without reference to
the pre-call latest file. -/
theorem rollover_swaps_files_sets_date_keeps_cursors (f : LevelFilter)
    (now : DateTime) (fs : FS) (cls : String) (hL hD : Handle)
    (lpL lpD : Nat) (dOld dI : Date) (l : LogLevel) (msg : String)
    (rec : LRecord) (isRelease : Bool)
    (hgate : l.toU32 ≤ f.toU32) (hdate : now.date ≠ dOld)
    (hlpL : lpL < 2 ^ 64) :
    ((output_progress_msg f now noProgressErrs
        (mkWriter fs cls hL lpL hD lpD dOld dI) l msg false).1).out_log_date =
      now.date ∧
    ((output_progress_msg f now noProgressErrs
        (mkWriter fs cls hL lpL hD lpD dOld dI) l msg false).1).out_log_file =
      some { name := latest_path cls,
             pos := lpL + (log_line now.timestamp l.display msg).data.length,
             append := false } ∧
    ((output_progress_msg f now noProgressErrs
        (mkWriter fs cls hL lpL hD lpD dOld dI) l msg false).1).out_log_file_line_position =
      some lpL ∧
    fsGet ((output_progress_msg f now noProgressErrs
        (mkWriter fs cls hL lpL hD lpD dOld dI) l msg false).1).fs
        (latest_path cls) =
      some (writeAt [] lpL (log_line now.timestamp l.display msg).data) ∧
    ((output_progress_msg f now noProgressErrs
        (mkWriter fs cls hL lpL hD lpD dOld dI) l msg false).1).out_log_date_file =
      some { name := dated_path cls now.date,
             pos := ((fsGet fs (dated_path cls now.date)).getD []).length +
               (log_line now.timestamp l.display msg).data.length,
             append := true } ∧
    fsGet ((output_progress_msg f now noProgressErrs
        (mkWriter fs cls hL lpL hD lpD dOld dI) l msg false).1).fs
        (dated_path cls now.date) =
      some ((fsGet fs (dated_path cls now.date)).getD [] ++
        (log_line now.timestamp l.display msg).data) ∧
    ((LogUtil.log isRelease now noRecordErrs
        (mkWriter fs cls hL lpL hD lpD dOld dI) rec).1).out_log_date = now.date ∧
    fsGet ((LogUtil.log isRelease now noRecordErrs
        (mkWriter fs cls hL lpL hD lpD dOld dI) rec).1).fs (latest_path cls) =
      some (log_line now.timestamp rec.level.display rec.msg ++ "\n").data ∧
    ((LogUtil.log isRelease now noRecordErrs
        (mkWriter fs cls hL lpL hD lpD dOld dI) rec).1).out_log_file_line_position =
      some (log_line now.timestamp rec.level.display rec.msg ++ "\n").data.length ∧
    ((LogUtil.log isRelease now noRecordErrs
        (mkWriter fs cls hL lpL hD lpD dOld dI) rec).1).out_log_date_file =
      some { name := dated_path cls now.date,
             pos := ((fsGet fs (dated_path cls now.date)).getD []).length +
               (log_line now.timestamp rec.level.display rec.msg ++ "\n").data.length,
             append := false } ∧
    fsGet ((LogUtil.log isRelease now noRecordErrs
        (mkWriter fs cls hL lpL hD lpD dOld dI) rec).1).fs
        (dated_path cls now.date) =
      some ((fsGet fs (dated_path cls now.date)).getD [] ++
        (log_line now.timestamp rec.level.display rec.msg ++ "\n").data) := by
  have hnd := latest_path_ne_dated_path cls now.date
  have hw1L : wsub (lpL + (log_line now.timestamp l.display msg).data.length)
      (msg.length + ("[2024-05-08 12:24:05 " ++ l.display ++ "] ").length) = lpL := by
    rw [sample_prefix_len_eq, progress_text_len]
    exact wsub_add_self lpL _ hlpL
  refine ⟨?_, ?_, ?_, ?_, ?_, ?_, ?_, ?_, ?_, ?_, ?_⟩ <;>
    simp [output_progress_msg, progress_rollover, progress_file_write,
      LogUtil.log, record_rollover, record_file_write, hWrite, mkWriter,
      hgate, hdate, hw1L, noProgressErrs, noRecordErrs, noFileErrs,
      fsGet_fsSet_self, fsGet_fsSet_ne _ _ _ _ hnd,
      fsGet_fsSet_ne _ _ _ _ (Ne.symm hnd), writeAt_append]
  · have h21 : "[2024-05-08 12:24:05 ".length = 21 := rfl
    have h2b : "] ".length = 2 := rfl
    have hE : msg.length + ("[2024-05-08 12:24:05 ".length + l.display.length +
        "] ".length) = (log_line now.timestamp l.display msg).length := by
      rw [log_line_length, timestamp_length, h21, h2b]
      omega
    rw [hE]
    exact wsub_add_self lpL _ hlpL
  · simp [writeAt]

/-- Witness for C1 amended: with a stale cursor of 5 and a day-old open date,
the day-two progress write leaves the cursor at 5 after the rollover. -/
theorem rollover_swaps_files_sets_date_keeps_cursors_witness :
    ((output_progress_msg .Info nextNow noProgressErrs
        (mkWriter [] "Svc" ⟨latest_path "Svc", 9, false⟩ 5
          ⟨dated_path "Svc" sampleDate, 0, false⟩ 0 sampleDate sampleDate)
        .Info "hi" false).1).out_log_file_line_position = some 5 :=
  (rollover_swaps_files_sets_date_keeps_cursors .Info nextNow [] "Svc"
    ⟨latest_path "Svc", 9, false⟩ ⟨dated_path "Svc" sampleDate, 0, false⟩ 5 0
    sampleDate sampleDate .Info "hi"
    { level := .Info, msg := "hi", module_path := none, line := none } true
    (by decide) (by decide) (by decide)).2.2.1
